import Mathlib

set_option maxHeartbeats 1000000
set_option linter.unusedVariables false

namespace VoiceChat

/-- Message roles used by the chat payloads and the per-persona histories. -/
inductive Role where
  | system
  | user
  | assistant
deriving DecidableEq, Repr

/-- A message object as the servers build and store it.  The JS push sites
construct object literals with exactly the properties role and content;
reading any other property of such an object (for example a timestamp)
yields undefined, which is modelled by the timestamp field holding none. -/
structure ChatMsg where
  role : Role
  content : String
  timestamp : Option String := none
deriving DecidableEq, Repr

/-- A persona record from the characters registries.  The long prompt and
greeting string constants are abridged to short prefixes here; no claim
depends on their content, only on which persona ids resolve and on each
persona carrying its own instruction text. -/
structure Persona where
  name : String
  source : String
  systemPrompt : String
  greeting : String
deriving DecidableEq, Repr

/-- Registry of src/unnamed/part_000 (characters object, lines 40-59). -/
def charactersA (c : String) : Option Persona :=
  if c = "joey" then
    some { name := "Joey Tribbiani", source := "Friends",
           systemPrompt := "You are Joey Tribbiani from the TV show Friends.",
           greeting := "Hey there!" }
  else if c = "dwight" then
    some { name := "Dwight K. Schrute", source := "The Office",
           systemPrompt := "You are Dwight K. Schrute from The Office.",
           greeting := "Attention!" }
  else if c = "dhruv" then
    some { name := "Dhruv Rathee", source := "YouTuber / Social Commentator",
           systemPrompt := "You are Dhruv Rathee, a popular Indian YouTuber known for analytical videos.",
           greeting := "Namaste!" }
  else none

/-- Registry of the Vercel-compatible server in src/unnamed/part_001
(characters object, lines 248-267). -/
def charactersC (c : String) : Option Persona :=
  if c = "joey" then
    some { name := "Joey Tribbiani", source := "Friends",
           systemPrompt := "You are Joey Tribbiani from the TV show Friends.",
           greeting := "Hey there!" }
  else if c = "dwight" then
    some { name := "Dwight K. Schrute", source := "The Office",
           systemPrompt := "You are Dwight K. Schrute from The Office.",
           greeting := "Question." }
  else if c = "dhruv" then
    some { name := "Dhruv Rathee", source := "YouTuber / Social Commentator",
           systemPrompt := "You are Dhruv Rathee, a popular Indian YouTuber and educator.",
           greeting := "Hello!" }
  else none

/-- Voice map literal inside the part_000 tts handler (lines 201-205). -/
def voiceMapA (c : String) : Option String :=
  if c = "joey" then some "onyx"
  else if c = "dwight" then some "echo"
  else if c = "dhruv" then some "fable"
  else none

/-- Voice map literal inside the part_001 Vercel tts handler (lines 378-382). -/
def voiceMapC (c : String) : Option String :=
  if c = "joey" then some "onyx"
  else if c = "dwight" then some "echo"
  else if c = "dhruv" then some "fable"
  else none

/-- The chatHistories object of both multi-character servers: one message
list per persona key (part_000 lines 66-70, part_001 lines 269-273). -/
structure ServerState where
  joey : List ChatMsg
  dwight : List ChatMsg
  dhruv : List ChatMsg
deriving DecidableEq, Repr

/-- Initial store: every history starts empty. -/
def emptyServer : ServerState := { joey := [], dwight := [], dhruv := [] }

/-- Property read chatHistories[c]: none models undefined for unknown keys. -/
def getHist (st : ServerState) (c : String) : Option (List ChatMsg) :=
  if c = "joey" then some st.joey
  else if c = "dwight" then some st.dwight
  else if c = "dhruv" then some st.dhruv
  else none

/-- chatHistories[c].push(m).  On an unknown key JS would throw on push of
undefined; every call site guards the key first, so the else branch is dead
code and modelled as a no-op. -/
def pushMsg (st : ServerState) (c : String) (m : ChatMsg) : ServerState :=
  if c = "joey" then { st with joey := st.joey ++ [m] }
  else if c = "dwight" then { st with dwight := st.dwight ++ [m] }
  else if c = "dhruv" then { st with dhruv := st.dhruv ++ [m] }
  else st

/-- chatHistories[c] = [] (clear-history handlers). -/
def setEmptyHist (st : ServerState) (c : String) : ServerState :=
  if c = "joey" then { st with joey := [] }
  else if c = "dwight" then { st with dwight := [] }
  else if c = "dhruv" then { st with dhruv := [] }
  else st

/-- JS truthiness test for an optional string request field: a missing field
(undefined) and the empty string are the falsy cases. -/
def falsy (s : Option String) : Prop := s.getD "" = ""

instance (s : Option String) : Decidable (falsy s) := by
  unfold falsy
  infer_instance

/-- Body of a POST respond request: both fields may be absent. -/
structure RespondReq where
  userMessage : Option String
  character : Option String
deriving DecidableEq, Repr

/-- Observable outcome of one respond handler run: HTTP status, error and
response payload fields, the store after the run, and the exact message
list handed to the text-generation collaborator (none when the collaborator
was never called). -/
structure RespondOut where
  status : Nat
  errMsg : Option String := none
  response : Option String := none
  state : ServerState
  genArg : Option (List ChatMsg) := none
deriving DecidableEq, Repr

/-- The /api/respond handler of src/unnamed/part_000 (lines 127-178).
The generation collaborator is the parameter gen; the environment key is a
parameter the handler body never consults (part_000 performs no per-request
key check; a missing key only surfaces later as a collaborator failure).
On success the handler pushes the user message and then the assistant
message; on collaborator failure nothing is pushed. -/
def respondA (apiKey : Option String) (gen : List ChatMsg → Except String String)
    (req : RespondReq) (st : ServerState) : RespondOut :=
  if falsy req.userMessage ∨ falsy req.character then
    { status := 400, errMsg := some "Missing userMessage or character", state := st }
  else
    match charactersA (req.character.getD "") with
    | none => { status := 400, errMsg := some "Invalid character", state := st }
    | some cd =>
      let c := req.character.getD ""
      let u := req.userMessage.getD ""
      let chatHistory := (getHist st c).getD []
      let messages : List ChatMsg :=
        { role := Role.system, content := cd.systemPrompt } ::
          (chatHistory ++ [{ role := Role.user, content := u }])
      match gen messages with
      | Except.error _ =>
        { status := 500, errMsg := some "Response generation failed",
          state := st, genArg := some messages }
      | Except.ok a =>
        let st1 := pushMsg st c { role := Role.user, content := u }
        let st2 := pushMsg st1 c { role := Role.assistant, content := a }
        { status := 200, response := some a, state := st2, genArg := some messages }

/-- The /api/respond handler of the Vercel-compatible server in
src/unnamed/part_001 (lines 317-362).  Field check, then registry check,
then explicit key check; the user message is pushed into the history
BEFORE the generation call, so a collaborator failure leaves the pushed
user message behind; on success the assistant message is pushed as well. -/
def respondC (apiKey : Option String) (gen : List ChatMsg → Except String String)
    (req : RespondReq) (st : ServerState) : RespondOut :=
  if falsy req.userMessage ∨ falsy req.character then
    { status := 400, errMsg := some "Missing userMessage or character", state := st }
  else
    match charactersC (req.character.getD "") with
    | none => { status := 400, errMsg := some "Invalid character", state := st }
    | some cd =>
      if falsy apiKey then
        { status := 500, errMsg := some "Server configuration error: Missing API key",
          state := st }
      else
        let c := req.character.getD ""
        let u := req.userMessage.getD ""
        let st1 := pushMsg st c { role := Role.user, content := u }
        let history := (getHist st1 c).getD []
        let messages : List ChatMsg :=
          { role := Role.system, content := cd.systemPrompt } :: history
        match gen messages with
        | Except.error _ =>
          { status := 500, errMsg := some "Response generation failed",
            state := st1, genArg := some messages }
        | Except.ok a =>
          { status := 200, response := some a,
            state := pushMsg st1 c { role := Role.assistant, content := a },
            genArg := some messages }

/-- System prompt constant of the Joey-only server in src/unnamed/part_001
(lines 99-112), abridged. -/
def joeysPersonality : String := "You are Joey Tribbiani from FRIENDS."

/-- Outcome of the Joey-only /respond handler, which keeps no store. -/
structure RespondBOut where
  status : Nat
  errMsg : Option String := none
  response : Option String := none
  genArg : Option (List ChatMsg) := none
deriving DecidableEq, Repr

/-- The /respond handler of the Joey-only server in src/unnamed/part_001
(lines 89-148): no registry, no history; the message list sent to the
generator is always the system prompt followed by the one user message. -/
def respondB (gen : List ChatMsg → Except String String)
    (transcript : Option String) : RespondBOut :=
  if falsy transcript then
    { status := 400, errMsg := some "No transcript provided" }
  else
    let messages : List ChatMsg :=
      [{ role := Role.system, content := joeysPersonality },
       { role := Role.user, content := transcript.getD "" }]
    match gen messages with
    | Except.error _ =>
      { status := 500, errMsg := some "Response generation failed", genArg := some messages }
    | Except.ok a =>
      { status := 200, response := some a, genArg := some messages }

/-- Observable outcome of one transcribe handler run. -/
structure TranscribeOut where
  status : Nat
  errMsg : Option String := none
  transcription : Option String := none
  collabCalled : Bool := false
deriving DecidableEq, Repr

/-- The /api/transcribe handler of src/unnamed/part_000 (lines 85-119): no
key check of any kind; with a file present it always reaches the Whisper
call, whose outcome is the parameter whisper. -/
def transcribeA (apiKey : Option String) (whisper : Except String String)
    (hasFile : Bool) : TranscribeOut :=
  if !hasFile then
    { status := 400, errMsg := some "No audio file provided" }
  else
    match whisper with
    | Except.error _ =>
      { status := 500, errMsg := some "Transcription failed", collabCalled := true }
    | Except.ok t =>
      { status := 200, transcription := some t, collabCalled := true }

/-- The /api/transcribe handler of the Vercel server in part_001
(lines 281-314): file check, then an explicit key check that returns a
configuration error without reaching the Whisper call. -/
def transcribeC (apiKey : Option String) (whisper : Except String String)
    (hasFile : Bool) : TranscribeOut :=
  if !hasFile then
    { status := 400, errMsg := some "No audio file provided" }
  else if falsy apiKey then
    { status := 500, errMsg := some "Server configuration error: Missing API key" }
  else
    match whisper with
    | Except.error _ =>
      { status := 500, errMsg := some "Transcription failed", collabCalled := true }
    | Except.ok t =>
      { status := 200, transcription := some t, collabCalled := true }

/-- Body of a POST tts request. -/
structure TtsReq where
  text : Option String
  character : Option String
deriving DecidableEq, Repr

/-- Observable outcome of one tts handler run, including the store after the
run and whether the synthesis collaborator was reached. -/
structure TtsOut where
  status : Nat
  errMsg : Option String := none
  audio : Option String := none
  state : ServerState
  collabCalled : Bool := false
deriving DecidableEq, Repr

/-- The /api/tts handler of src/unnamed/part_000 (lines 186-232): field
check, registry check, then the synthesis call with the mapped voice.  The
synthesis collaborator is the parameter synth (voice option, text). -/
def ttsA (apiKey : Option String) (synth : Option String → String → Except String String)
    (req : TtsReq) (st : ServerState) : TtsOut :=
  if falsy req.text ∨ falsy req.character then
    { status := 400, errMsg := some "Missing text or character", state := st }
  else
    match charactersA (req.character.getD "") with
    | none => { status := 400, errMsg := some "Invalid character", state := st }
    | some _ =>
      match synth (voiceMapA (req.character.getD "")) (req.text.getD "") with
      | Except.error _ =>
        { status := 500, errMsg := some "Text-to-speech failed", state := st,
          collabCalled := true }
      | Except.ok audio =>
        { status := 200, audio := some audio, state := st, collabCalled := true }

/-- The /api/tts handler of the Vercel server in part_001 (lines 365-404):
field check, key check, and NO registry check; the voice map lookup for an
unknown persona yields undefined (none) and the synthesis collaborator is
still called with that undefined voice. -/
def ttsC (apiKey : Option String) (synth : Option String → String → Except String String)
    (req : TtsReq) (st : ServerState) : TtsOut :=
  if falsy req.text ∨ falsy req.character then
    { status := 400, errMsg := some "Missing text or character", state := st }
  else if falsy apiKey then
    { status := 500, errMsg := some "Server configuration error: Missing API key",
      state := st }
  else
    match synth (voiceMapC (req.character.getD "")) (req.text.getD "") with
    | Except.error _ =>
      { status := 500, errMsg := some "Text-to-speech failed", state := st,
        collabCalled := true }
    | Except.ok audio =>
      { status := 200, audio := some audio, state := st, collabCalled := true }

/-- The /api/clear-history handler of src/unnamed/part_000 (lines 252-261):
registry check, then reset the history to the empty list. -/
def clearA (character : Option String) (st : ServerState) : Nat × ServerState :=
  match charactersA (character.getD "") with
  | none => (400, st)
  | some _ => (200, setEmptyHist st (character.getD ""))

/-- The /api/clear-history handler of the Vercel server in part_001
(lines 418-427): the guard is character truthy AND chatHistories[character]
defined (a stored array is always truthy, even when empty). -/
def clearC (character : Option String) (st : ServerState) : Nat × ServerState :=
  if ¬ falsy character ∧ (getHist st (character.getD "")).isSome then
    (200, setEmptyHist st (character.getD ""))
  else
    (400, st)

/-- One operation against the Vercel server store for the turn-trace model:
a respond attempt (with the given persona id, user message and generation
outcome, the key being present) or a clear-history request. -/
inductive Op where
  | respond (c u : String) (g : Except String String)
  | clear (c : String)

/-- Apply one operation through the actual part_001 Vercel handlers. -/
def stepC (st : ServerState) (op : Op) : ServerState :=
  match op with
  | Op.respond c u g =>
      (respondC (some "sk-test") (fun _ => g) { userMessage := some u, character := some c } st).state
  | Op.clear c => (clearC (some c) st).2

/-- Run a whole trace of operations from a starting store. -/
def runC (st : ServerState) (ops : List Op) : ServerState := ops.foldl stepC st

/-- Well-formed operation: a respond op carries a nonempty user message
(an empty one is rejected by the field guard before touching the store). -/
def wfOp : Op → Prop
  | Op.respond _ u _ => u ≠ ""
  | Op.clear _ => True

instance : ∀ op : Op, Decidable (wfOp op)
  | Op.respond _ u _ => inferInstanceAs (Decidable (u ≠ ""))
  | Op.clear _ => inferInstanceAs (Decidable True)

/-- Number of successful generation stages for persona p in a trace, counted
since the last clear of p (a clear resets the count). -/
def genSuccesses (p : String) (acc : Nat) : List Op → Nat
  | [] => acc
  | Op.respond c _ (Except.ok _) :: r => genSuccesses p (if c = p then acc + 1 else acc) r
  | Op.respond _ _ (Except.error _) :: r => genSuccesses p acc r
  | Op.clear c :: r => genSuccesses p (if c = p then 0 else acc) r

/-- Number of failed generation attempts for persona p in a trace, counted
since the last clear of p. -/
def genFailures (p : String) (acc : Nat) : List Op → Nat
  | [] => acc
  | Op.respond c _ (Except.error _) :: r => genFailures p (if c = p then acc + 1 else acc) r
  | Op.respond _ _ (Except.ok _) :: r => genFailures p acc r
  | Op.clear c :: r => genFailures p (if c = p then 0 else acc) r

/-- Length of the stored history of persona p. -/
def lenOf (p : String) (st : ServerState) : Nat := ((getHist st p).getD []).length

-- ============================================
-- Client model (src/public/client.js)
-- ============================================

/-- A client-side history item as addToHistory builds it (lines 236-241):
sender, message text, optional audio, and a timestamp string. -/
structure HistItem where
  sender : String
  message : String
  audio : Option String
  timestamp : String
deriving DecidableEq, Repr

/-- Client global state: the selected character, the mirrored per-character
histories, the playback sub-state (the pair of nullable globals
currentlyPlayingIndex and currentlyPlayingCharacter plus the audio element
paused flag), and whether the audio element was found at page load. -/
structure ClientState where
  currentCharacter : String
  histJoey : List HistItem
  histDwight : List HistItem
  histDhruv : List HistItem
  playingIndex : Option Nat
  playingCharacter : Option String
  audioPaused : Bool
  audioPlayerReady : Bool
deriving DecidableEq, Repr

/-- Property read chatHistories[c] on the client. -/
def clientHist (st : ClientState) (c : String) : Option (List HistItem) :=
  if c = "joey" then some st.histJoey
  else if c = "dwight" then some st.histDwight
  else if c = "dhruv" then some st.histDhruv
  else none

/-- Replace the history stored under a known client key. -/
def setClientHist (st : ClientState) (c : String) (l : List HistItem) : ClientState :=
  if c = "joey" then { st with histJoey := l }
  else if c = "dwight" then { st with histDwight := l }
  else if c = "dhruv" then { st with histDhruv := l }
  else st

/-- addToHistory (client.js lines 231-249): stamps the item with the current
clock reading (the parameter now stands for the formatTimestamp() call) and
pushes it onto chatHistories[currentCharacter] — the character read at the
moment of the call.  On an unknown current character JS would throw on the
push; call sites only ever select registry ids, so that branch is dead. -/
def addToHistory (now : String) (sender message : String) (audio : Option String)
    (st : ClientState) : ClientState :=
  match clientHist st st.currentCharacter with
  | some l =>
      setClientHist st st.currentCharacter
        (l ++ [{ sender := sender, message := message, audio := audio, timestamp := now }])
  | none => st

/-- selectCharacter (client.js lines 48-64): switches the active character;
histories and the playback globals are not touched (the DOM re-render is
not modelled). -/
def selectCharacter (q : String) (st : ClientState) : ClientState :=
  { st with currentCharacter := q }

/-- playMessageAudio (client.js lines 150-216).  Guards in source order:
audio player present, history defined and index in range, message has
audio.  Then the toggle branch (same message currently playing and not
paused) stops playback; otherwise the playing globals are pointed at the
requested message and play() is attempted — on success the element is
unpaused, on a blocked play the globals are reset to null. -/
def playMessageAudio (playOk : Bool) (character : String) (messageIndex : Nat)
    (st : ClientState) : ClientState :=
  if !st.audioPlayerReady then st
  else
    match clientHist st character with
    | none => st
    | some history =>
      if history.length ≤ messageIndex then st
      else
        match history[messageIndex]? with
        | none => st
        | some m =>
          if m.audio.isNone then st
          else if st.playingIndex = some messageIndex ∧
                  st.playingCharacter = some character ∧
                  st.audioPaused = false then
            { st with playingIndex := none, playingCharacter := none, audioPaused := true }
          else if playOk then
            { st with playingIndex := some messageIndex,
                      playingCharacter := some character, audioPaused := false }
          else
            { st with playingIndex := none, playingCharacter := none }

/-- The success path of sendToServer (client.js lines 376-462) with an
optional selectCharacter event interleaved during the transcription stage
(the switch parameter): the transcript is appended as a user item, the
reply as a character item with audio, each stamped at its own append time;
then the autoplay block points the playing globals at the last appended
message of the character selected at that moment (or resets them when the
browser blocks autoplay). -/
def sendTurn (switchDuring : Option String) (transcript reply audio : String)
    (t1 t2 : String) (playOk : Bool) (st : ClientState) : ClientState :=
  let st0 := match switchDuring with
    | none => st
    | some q => selectCharacter q st
  let st1 := addToHistory t1 "user" transcript none st0
  let st2 := addToHistory t2 "character" reply (some audio) st1
  if playOk then
    { st2 with
        playingIndex := some (((clientHist st2 st2.currentCharacter).getD []).length - 1),
        playingCharacter := some st2.currentCharacter,
        audioPaused := false }
  else
    { st2 with playingIndex := none, playingCharacter := none }

-- ============================================
-- Concrete collaborator instances for closed statements
-- ============================================

/-- Generation collaborator that always fails (a collaborator-level error,
for example the auth failure produced by a missing credential). -/
def genFailX : List ChatMsg → Except String String := fun _ => Except.error "boom"

/-- Generation collaborator that always answers with a fixed reply. -/
def genOkHey : List ChatMsg → Except String String := fun _ => Except.ok "Hey there!"

/-- Whisper outcome: failure (for example an auth error without a key). -/
def whisperFailAuth : Except String String := Except.error "401 no key"

/-- Synthesis collaborator that rejects an undefined voice and accepts any
defined one: a probe showing whether the remote call was reached and what
voice argument it received. -/
def synthProbe : Option String → String → Except String String :=
  fun v _ => match v with
    | none => Except.error "invalid voice"
    | some _ => Except.ok "QVVESU8="

/-- Synthesis collaborator that always fails. -/
def synthFail : Option String → String → Except String String :=
  fun _ _ => Except.error "tts down"

-- ============================================
-- Store helper lemmas
-- ============================================

theorem getHist_pushMsg_same (st : ServerState) (c : String) (m : ChatMsg) :
    getHist (pushMsg st c m) c = (getHist st c).map (fun h => h ++ [m]) := by
  unfold getHist pushMsg
  split_ifs <;> simp

theorem getHist_pushMsg_other (st : ServerState) (c p : String) (m : ChatMsg)
    (hne : p ≠ c) : getHist (pushMsg st c m) p = getHist st p := by
  unfold getHist pushMsg
  split_ifs <;> simp_all

theorem getHist_setEmpty_same (st : ServerState) (c : String) :
    getHist (setEmptyHist st c) c = (getHist st c).map (fun _ => []) := by
  unfold getHist setEmptyHist
  split_ifs <;> simp

theorem getHist_setEmpty_other (st : ServerState) (c p : String)
    (hne : p ≠ c) : getHist (setEmptyHist st c) p = getHist st p := by
  unfold getHist setEmptyHist
  split_ifs <;> simp_all

theorem getHist_isSome_of_charactersC (st : ServerState) (p : String)
    (h : (charactersC p).isSome) : (getHist st p).isSome := by
  unfold charactersC at h
  unfold getHist
  split_ifs at h ⊢ <;> simp_all

theorem getHist_isSome_of_charactersA (st : ServerState) (p : String)
    (h : (charactersA p).isSome) : (getHist st p).isSome := by
  unfold charactersA at h
  unfold getHist
  split_ifs at h ⊢ <;> simp_all

theorem charactersC_ne_empty (p : String) (h : (charactersC p).isSome) : p ≠ "" := by
  intro he
  subst he
  simp [charactersC] at h

theorem charactersA_ne_empty (p : String) (h : (charactersA p).isSome) : p ≠ "" := by
  intro he
  subst he
  simp [charactersA] at h

theorem getHist_pushMsg_getD (st : ServerState) (c : String) (m : ChatMsg)
    (hsome : (getHist st c).isSome) :
    getHist (pushMsg st c m) c = some ((getHist st c).getD [] ++ [m]) := by
  rcases Option.isSome_iff_exists.mp hsome with ⟨h, hh⟩
  rw [getHist_pushMsg_same, hh]
  simp

-- ============================================
-- Client store helper lemmas
-- ============================================

theorem clientHist_set_same (st : ClientState) (c : String) (l : List HistItem) :
    clientHist (setClientHist st c l) c = (clientHist st c).map (fun _ => l) := by
  unfold clientHist setClientHist
  split_ifs <;> simp

theorem clientHist_set_other (st : ClientState) (c q : String) (l : List HistItem)
    (hne : q ≠ c) : clientHist (setClientHist st c l) q = clientHist st q := by
  unfold clientHist setClientHist
  split_ifs <;> simp_all

theorem currentCharacter_set (st : ClientState) (c : String) (l : List HistItem) :
    (setClientHist st c l).currentCharacter = st.currentCharacter := by
  unfold setClientHist
  split_ifs <;> rfl

theorem addToHistory_appends_current (st : ClientState) (now s m : String)
    (a : Option String) (l : List HistItem)
    (h : clientHist st st.currentCharacter = some l) :
    clientHist (addToHistory now s m a st) st.currentCharacter =
      some (l ++ [{ sender := s, message := m, audio := a, timestamp := now }]) := by
  unfold addToHistory
  rw [h]
  rw [clientHist_set_same, h]
  rfl

theorem addToHistory_other (st : ClientState) (now s m : String) (a : Option String)
    (q : String) (hne : q ≠ st.currentCharacter) :
    clientHist (addToHistory now s m a st) q = clientHist st q := by
  unfold addToHistory
  cases h : clientHist st st.currentCharacter with
  | none => rfl
  | some l => exact clientHist_set_other st st.currentCharacter q _ hne

theorem addToHistory_currentCharacter (st : ClientState) (now s m : String)
    (a : Option String) :
    (addToHistory now s m a st).currentCharacter = st.currentCharacter := by
  unfold addToHistory
  cases h : clientHist st st.currentCharacter with
  | none => rfl
  | some l => exact currentCharacter_set st st.currentCharacter _

theorem clientHist_update_playing (st : ClientState) (a : Option Nat)
    (b : Option String) (pz : Bool) (c : String) :
    clientHist { st with playingIndex := a, playingCharacter := b, audioPaused := pz } c =
      clientHist st c := by
  unfold clientHist
  split_ifs <;> rfl

-- ============================================
-- C1 — pending user message on generation failure
-- ============================================

/-- C1 counterexample: the claim quantifies over the whole program, but the
part_000 /api/respond handler (lines 159-177) appends nothing before the
generation call: at the concrete input (userMessage "hello there", persona
joey, empty store) a generation failure returns 500 and leaves the store
identical to the empty store, so the transcript is NOT present as a user
message there. -/
theorem C1_counterexample :
    (respondA (some "sk-test") genFailX
      { userMessage := some "hello there", character := some "joey" } emptyServer).status = 500 ∧
    (respondA (some "sk-test") genFailX
      { userMessage := some "hello there", character := some "joey" } emptyServer).state =
      emptyServer := by
  constructor <;> rfl

/-- C1 amended: in the Vercel-compatible /api/respond handler of part_001
(lines 337-360), for every persona resolving in the registry, every prior
history and every present key, a generation failure returns 500 and leaves
the store equal to the old store with exactly one new entry — the user
message carrying the transcript — appended to that persona and no paired
assistant entry; every other persona history is untouched. -/
theorem C1_retention_vercel (st : ServerState) (key : Option String)
    (c u e : String) (cd : Persona)
    (hcd : charactersC c = some cd) (hu : u ≠ "") (hk : ¬ falsy key) :
    (respondC key (fun _ => Except.error e)
      { userMessage := some u, character := some c } st).status = 500 ∧
    getHist (respondC key (fun _ => Except.error e)
      { userMessage := some u, character := some c } st).state c =
      some ((getHist st c).getD [] ++ [{ role := Role.user, content := u }]) ∧
    (∀ p : String, p ≠ c →
      getHist (respondC key (fun _ => Except.error e)
        { userMessage := some u, character := some c } st).state p = getHist st p) := by
  have hsome : (charactersC c).isSome := by simp [hcd]
  have hc : c ≠ "" := charactersC_ne_empty c hsome
  have hs : (getHist st c).isSome := getHist_isSome_of_charactersC st c hsome
  have hget := getHist_pushMsg_getD st c { role := Role.user, content := u } hs
  have hguard : ¬ (falsy (some u) ∨ falsy (some c)) := by
    simp [falsy, hu, hc]
  refine ⟨?_, ?_, ?_⟩
  · simp [respondC, hguard, hcd, hk]
  · simp [respondC, hguard, hcd, hk, hget]
  · intro p hp
    simp [respondC, hguard, hcd, hk, getHist_pushMsg_other st c p _ hp]

/-- C1 witness: instantiating the amended retention theorem at persona joey,
transcript "hello there", a present key and a one-message prior history. -/
theorem C1_retention_vercel_witness :
    (respondC (some "sk-test") (fun _ => Except.error "boom")
      { userMessage := some "hello there", character := some "joey" }
      { joey := [{ role := Role.user, content := "earlier" }], dwight := [], dhruv := [] }).status = 500 ∧
    getHist (respondC (some "sk-test") (fun _ => Except.error "boom")
      { userMessage := some "hello there", character := some "joey" }
      { joey := [{ role := Role.user, content := "earlier" }], dwight := [], dhruv := [] }).state "joey" =
      some [{ role := Role.user, content := "earlier" },
            { role := Role.user, content := "hello there" }] := by
  have h := C1_retention_vercel
    { joey := [{ role := Role.user, content := "earlier" }], dwight := [], dhruv := [] }
    (some "sk-test") "joey" "hello there" "boom"
    { name := "Joey Tribbiani", source := "Friends",
      systemPrompt := "You are Joey Tribbiani from the TV show Friends.",
      greeting := "Hey there!" }
    (by rfl) (by decide) (by decide)
  refine ⟨h.1, ?_⟩
  rw [h.2.1]
  rfl

-- ============================================
-- C2 — shape of the message list sent to the generator
-- ============================================

/-- C2: for every respond request with a valid persona, a nonempty user
message and (where checked) a present key, the message list handed to the
text-generation collaborator is exactly one leading system entry carrying
that persona instruction, then the full prior history in original order,
then the new user message last.  This holds for the part_000 handler, for
the part_001 Vercel handler (whose push-then-spread construction flattens
to the same shape), and for the Joey-only handler, whose prior history is
always empty. -/
theorem C2_generator_message_shape (st : ServerState) (key : Option String)
    (c u : String) (cdA cdC : Persona)
    (gA gC gB : List ChatMsg → Except String String)
    (hA : charactersA c = some cdA) (hC : charactersC c = some cdC)
    (hu : u ≠ "") (hk : ¬ falsy key) :
    (respondA key gA { userMessage := some u, character := some c } st).genArg =
      some ({ role := Role.system, content := cdA.systemPrompt } ::
        ((getHist st c).getD [] ++ [{ role := Role.user, content := u }])) ∧
    (respondC key gC { userMessage := some u, character := some c } st).genArg =
      some ({ role := Role.system, content := cdC.systemPrompt } ::
        ((getHist st c).getD [] ++ [{ role := Role.user, content := u }])) ∧
    (respondB gB (some u)).genArg =
      some ({ role := Role.system, content := joeysPersonality } ::
        ([] ++ [{ role := Role.user, content := u }])) := by
  have hsomeC : (charactersC c).isSome := by simp [hC]
  have hc : c ≠ "" := charactersC_ne_empty c hsomeC
  have hs : (getHist st c).isSome := getHist_isSome_of_charactersC st c hsomeC
  have hget := getHist_pushMsg_getD st c { role := Role.user, content := u } hs
  have hguard : ¬ (falsy (some u) ∨ falsy (some c)) := by
    simp [falsy, hu, hc]
  refine ⟨?_, ?_, ?_⟩
  · simp [respondA, hguard, hA]
    split <;> rfl
  · simp [respondC, hguard, hC, hk, hget]
    split <;> rfl
  · have hguardB : ¬ falsy (some u) := by simp [falsy, hu]
    simp [respondB, hguardB]
    split <;> rfl

/-- C2 witness: the shape at persona dwight, a one-entry prior history and
user message "hi", for concrete collaborators. -/
theorem C2_generator_message_shape_witness :
    (respondA (some "sk-test") genOkHey
      { userMessage := some "hi", character := some "dwight" }
      { joey := [], dwight := [{ role := Role.assistant, content := "old" }], dhruv := [] }).genArg =
      some [{ role := Role.system, content := "You are Dwight K. Schrute from The Office." },
            { role := Role.assistant, content := "old" },
            { role := Role.user, content := "hi" }] ∧
    (respondC (some "sk-test") genFailX
      { userMessage := some "hi", character := some "dwight" }
      { joey := [], dwight := [{ role := Role.assistant, content := "old" }], dhruv := [] }).genArg =
      some [{ role := Role.system, content := "You are Dwight K. Schrute from The Office." },
            { role := Role.assistant, content := "old" },
            { role := Role.user, content := "hi" }] := by
  have h := C2_generator_message_shape
    { joey := [], dwight := [{ role := Role.assistant, content := "old" }], dhruv := [] }
    (some "sk-test") "dwight" "hi"
    { name := "Dwight K. Schrute", source := "The Office",
      systemPrompt := "You are Dwight K. Schrute from The Office.",
      greeting := "Attention!" }
    { name := "Dwight K. Schrute", source := "The Office",
      systemPrompt := "You are Dwight K. Schrute from The Office.",
      greeting := "Question." }
    genOkHey genFailX genOkHey
    (by rfl) (by rfl) (by decide) (by decide)
  refine ⟨?_, ?_⟩
  · rw [h.1]
    rfl
  · rw [h.2.1]
    rfl

-- ============================================
-- C4 — unknown persona on respond: 400 and no mutation
-- ============================================

/-- C4: whenever the persona id of a respond request does not resolve in the
registry (including a missing or empty field), both multi-character respond
handlers return status 400, leave the store exactly as it was for every
persona, and never reach the generation collaborator. -/
theorem C4_respond_unknown_persona (st : ServerState) (key : Option String)
    (gA gC : List ChatMsg → Except String String) (req : RespondReq)
    (hA : charactersA (req.character.getD "") = none)
    (hC : charactersC (req.character.getD "") = none) :
    (respondA key gA req st).status = 400 ∧
    (respondA key gA req st).state = st ∧
    (respondA key gA req st).genArg = none ∧
    (respondC key gC req st).status = 400 ∧
    (respondC key gC req st).state = st ∧
    (respondC key gC req st).genArg = none := by
  by_cases hguard : falsy req.userMessage ∨ falsy req.character
  · refine ⟨?_, ?_, ?_, ?_, ?_, ?_⟩ <;> simp [respondA, respondC, hguard]
  · refine ⟨?_, ?_, ?_, ?_, ?_, ?_⟩ <;> simp [respondA, respondC, hguard, hA, hC]

/-- C4 witness: the unknown persona id "batman" with a nonempty store. -/
theorem C4_respond_unknown_persona_witness :
    (respondC (some "sk-test") genOkHey
      { userMessage := some "hi", character := some "batman" }
      { joey := [{ role := Role.user, content := "x" }], dwight := [], dhruv := [] }).status = 400 ∧
    (respondC (some "sk-test") genOkHey
      { userMessage := some "hi", character := some "batman" }
      { joey := [{ role := Role.user, content := "x" }], dwight := [], dhruv := [] }).state =
      { joey := [{ role := Role.user, content := "x" }], dwight := [], dhruv := [] } := by
  have h := C4_respond_unknown_persona
    { joey := [{ role := Role.user, content := "x" }], dwight := [], dhruv := [] }
    (some "sk-test") genOkHey genOkHey
    { userMessage := some "hi", character := some "batman" }
    (by rfl) (by rfl)
  exact ⟨h.2.2.2.1, h.2.2.2.2.1⟩

-- ============================================
-- C7 — tts never mutates any store
-- ============================================

/-- C7: the synthesize handlers of both multi-character servers return the
store unchanged on every input, whichever branch is taken (missing fields,
unknown persona, missing key, collaborator failure or success); the
Joey-only /tts handler keeps no store at all.  Hence the stage is
retryable without altering stored state. -/
theorem C7_tts_no_store_mutation (key : Option String)
    (synth : Option String → String → Except String String)
    (req : TtsReq) (st : ServerState) :
    (ttsA key synth req st).state = st ∧ (ttsC key synth req st).state = st := by
  constructor
  · unfold ttsA
    split
    · rfl
    · split
      · rfl
      · rcases synth (voiceMapA (req.character.getD "")) (req.text.getD "") with e | a <;> rfl
  · unfold ttsC
    split
    · rfl
    · split
      · rfl
      · rcases synth (voiceMapC (req.character.getD "")) (req.text.getD "") with e | a <;> rfl

-- ============================================
-- C8 — unknown persona on tts
-- ============================================

/-- C8 evaluation at the failing input: the part_001 Vercel /api/tts handler
(lines 365-404) performs no registry check, so at text "hello" and the
unknown persona id "batman" with a key present it looks up an undefined
voice, still calls the synthesis collaborator with that undefined voice,
and answers 500 — not the claimed 400-class invalid-input error without a
collaborator call.  (The part_000 handler does check the registry and
returns 400 there.) -/
theorem C8_tts_unknown_persona_eval :
    voiceMapC "batman" = none ∧
    (ttsC (some "sk-test") synthProbe
      { text := some "hello", character := some "batman" } emptyServer).status = 500 ∧
    (ttsC (some "sk-test") synthProbe
      { text := some "hello", character := some "batman" } emptyServer).collabCalled = true ∧
    (ttsC (some "sk-test") synthProbe
      { text := some "hello", character := some "batman" } emptyServer).errMsg =
      some "Text-to-speech failed" ∧
    (ttsA (some "sk-test") synthProbe
      { text := some "hello", character := some "batman" } emptyServer).status = 400 ∧
    (ttsA (some "sk-test") synthProbe
      { text := some "hello", character := some "batman" } emptyServer).collabCalled = false := by
  refine ⟨?_, ?_, ?_, ?_, ?_, ?_⟩ <;> rfl

-- ============================================
-- C5 — missing credential handling
-- ============================================

/-- C5 counterexample: the claim quantifies over every collaborator-calling
endpoint of the program, but the part_000 server has no per-request key
check at all (its client is built once from the environment, lines 31-34):
with the key absent (none), its transcribe, respond and tts handlers still
reach the collaborator call (which fails at the collaborator level) and
answer with the collaborator failure message, not a configuration error. -/
theorem C5_counterexample :
    (transcribeA none whisperFailAuth true).collabCalled = true ∧
    (transcribeA none whisperFailAuth true).errMsg = some "Transcription failed" ∧
    (respondA none genFailX
      { userMessage := some "hi", character := some "joey" } emptyServer).genArg.isSome = true ∧
    (respondA none genFailX
      { userMessage := some "hi", character := some "joey" } emptyServer).errMsg =
      some "Response generation failed" ∧
    (ttsA none synthFail
      { text := some "hi", character := some "joey" } emptyServer).collabCalled = true ∧
    (ttsA none synthFail
      { text := some "hi", character := some "joey" } emptyServer).errMsg =
      some "Text-to-speech failed" := by
  refine ⟨rfl, rfl, rfl, rfl, rfl, rfl⟩

/-- C5 amended: on the part_001 Vercel server the property does hold: with
the key absent or empty, each of the transcribe, respond and tts handlers
whose earlier input guards pass returns the configuration-error response
(500, Server configuration error: Missing API key) without reaching its
collaborator and without touching the store.  The part_000 server performs
no such check and surfaces a collaborator-level failure instead. -/
theorem C5_config_guard_vercel (key : Option String) (hk : falsy key) :
    (∀ whisper : Except String String,
      transcribeC key whisper true =
        { status := 500, errMsg := some "Server configuration error: Missing API key" }) ∧
    (∀ (gen : List ChatMsg → Except String String) (c u : String) (cd : Persona)
      (st : ServerState), charactersC c = some cd → u ≠ "" →
      respondC key gen { userMessage := some u, character := some c } st =
        { status := 500, errMsg := some "Server configuration error: Missing API key",
          state := st }) ∧
    (∀ (synth : Option String → String → Except String String) (t c : String)
      (st : ServerState), t ≠ "" → c ≠ "" →
      ttsC key synth { text := some t, character := some c } st =
        { status := 500, errMsg := some "Server configuration error: Missing API key",
          state := st }) := by
  refine ⟨?_, ?_, ?_⟩
  · intro whisper
    simp [transcribeC, hk]
  · intro gen c u cd st hcd hu
    have hc : c ≠ "" := charactersC_ne_empty c (by simp [hcd])
    have hguard : ¬ (falsy (some u) ∨ falsy (some c)) := by
      simp [falsy, hu, hc]
    simp [respondC, hguard, hcd, hk]
  · intro synth t c st ht hc
    have hguard : ¬ (falsy (some t) ∨ falsy (some c)) := by
      simp [falsy, ht, hc]
    simp [ttsC, hguard, hk]

/-- C5 witness: the Vercel guards at the absent key and concrete inputs. -/
theorem C5_config_guard_vercel_witness :
    transcribeC none whisperFailAuth true =
      { status := 500, errMsg := some "Server configuration error: Missing API key" } ∧
    respondC none genOkHey { userMessage := some "hi", character := some "joey" } emptyServer =
      { status := 500, errMsg := some "Server configuration error: Missing API key",
        state := emptyServer } ∧
    ttsC none synthProbe { text := some "hi", character := some "joey" } emptyServer =
      { status := 500, errMsg := some "Server configuration error: Missing API key",
        state := emptyServer } := by
  have h := C5_config_guard_vercel none (by decide)
  exact ⟨h.1 whisperFailAuth,
         h.2.1 genOkHey "joey" "hi"
           { name := "Joey Tribbiani", source := "Friends",
             systemPrompt := "You are Joey Tribbiani from the TV show Friends.",
             greeting := "Hey there!" } emptyServer (by rfl) (by decide),
         h.2.2 synthProbe "hi" "joey" emptyServer (by decide) (by decide)⟩

-- ============================================
-- C6 — two appended entries after a successful generation
-- ============================================

/-- C6 counterexample: the server-side appends are object literals carrying
only role and content (part_000 lines 170-171, part_001 lines 337 and 353);
at the concrete successful turn below the two entries appended to the joey
history both have an undefined timestamp (none), so the claim that each
appended message carries its own timestamp is false of the store the claim
cites. -/
theorem C6_counterexample :
    (respondA (some "sk-test") genOkHey
      { userMessage := some "hi", character := some "joey" } emptyServer).state.joey =
      [{ role := Role.user, content := "hi" },
       { role := Role.assistant, content := "Hey there!" }] ∧
    ((respondA (some "sk-test") genOkHey
      { userMessage := some "hi", character := some "joey" } emptyServer).state.joey.map
        (fun m => m.timestamp)) = [none, none] ∧
    ((respondC (some "sk-test") genOkHey
      { userMessage := some "hi", character := some "joey" } emptyServer).state.joey.map
        (fun m => m.timestamp)) = [none, none] := by
  refine ⟨rfl, rfl, rfl⟩

/-- C6 amended: after a successful generation both multi-character respond
handlers append exactly two entries to that persona — first the user
message, then the assistant reply, each carrying only role and text (their
timestamp property is undefined); the per-message timestamps live in the
client-side mirror, where the user append and the assistant append of a
turn each receive their own clock reading (t1 and t2).  The theorem also
records, for both handlers, that no other persona history is touched. -/
theorem C6_two_appends_user_then_assistant (st : ServerState) (key : Option String)
    (c u a : String) (cdA cdC : Persona)
    (hA : charactersA c = some cdA) (hC : charactersC c = some cdC)
    (hu : u ≠ "") (hk : ¬ falsy key)
    (cst : ClientState) (l : List HistItem) (tr r : String) (aud : Option String)
    (t1 t2 : String) (hcl : clientHist cst cst.currentCharacter = some l) :
    getHist (respondA key (fun _ => Except.ok a)
      { userMessage := some u, character := some c } st).state c =
      some ((getHist st c).getD [] ++
        [{ role := Role.user, content := u, timestamp := none },
         { role := Role.assistant, content := a, timestamp := none }]) ∧
    getHist (respondC key (fun _ => Except.ok a)
      { userMessage := some u, character := some c } st).state c =
      some ((getHist st c).getD [] ++
        [{ role := Role.user, content := u, timestamp := none },
         { role := Role.assistant, content := a, timestamp := none }]) ∧
    (∀ p : String, p ≠ c →
      getHist (respondA key (fun _ => Except.ok a)
        { userMessage := some u, character := some c } st).state p = getHist st p) ∧
    (∀ p : String, p ≠ c →
      getHist (respondC key (fun _ => Except.ok a)
        { userMessage := some u, character := some c } st).state p = getHist st p) ∧
    clientHist (addToHistory t2 "character" r aud (addToHistory t1 "user" tr none cst))
      cst.currentCharacter =
      some (l ++ [{ sender := "user", message := tr, audio := none, timestamp := t1 },
                  { sender := "character", message := r, audio := aud, timestamp := t2 }]) := by
  have hsomeC : (charactersC c).isSome := by simp [hC]
  have hc : c ≠ "" := charactersC_ne_empty c hsomeC
  have hs : (getHist st c).isSome := getHist_isSome_of_charactersC st c hsomeC
  have hget1 := getHist_pushMsg_getD st c { role := Role.user, content := u } hs
  have hs2 : (getHist (pushMsg st c { role := Role.user, content := u }) c).isSome :=
    getHist_isSome_of_charactersC _ c hsomeC
  have hget2 := getHist_pushMsg_getD (pushMsg st c { role := Role.user, content := u }) c
    { role := Role.assistant, content := a } hs2
  have hguard : ¬ (falsy (some u) ∨ falsy (some c)) := by
    simp [falsy, hu, hc]
  refine ⟨?_, ?_, ?_, ?_, ?_⟩
  · simp [respondA, hguard, hA, hget2, hget1]
  · simp [respondC, hguard, hC, hk, hget2, hget1]
  · intro p hp
    simp [respondA, hguard, hA,
      getHist_pushMsg_other _ c p _ hp]
  · intro p hp
    simp [respondC, hguard, hC, hk,
      getHist_pushMsg_other, hp]
  · have hcc := addToHistory_currentCharacter cst t1 "user" tr none
    have h1 := addToHistory_appends_current cst t1 "user" tr none l hcl
    have h2 := addToHistory_appends_current (addToHistory t1 "user" tr none cst) t2
      "character" r aud
      (l ++ [{ sender := "user", message := tr, audio := none, timestamp := t1 }])
      (by rw [hcc]; exact h1)
    rw [hcc] at h2
    rw [h2]
    simp

/-- C6 witness: a successful turn for persona dhruv from a one-entry prior
history, and the client mirror appends with timestamps 10:00 and 10:01. -/
theorem C6_two_appends_user_then_assistant_witness :
    getHist (respondC (some "sk-test") (fun _ => Except.ok "Hello!")
      { userMessage := some "hey", character := some "dhruv" }
      { joey := [], dwight := [], dhruv := [{ role := Role.assistant, content := "old" }] }).state
      "dhruv" =
      some [{ role := Role.assistant, content := "old" },
            { role := Role.user, content := "hey" },
            { role := Role.assistant, content := "Hello!" }] ∧
    clientHist (addToHistory "10:01" "character" "Hello!" (some "AUDIO")
      (addToHistory "10:00" "user" "hey"
        none
        { currentCharacter := "dhruv", histJoey := [], histDwight := [], histDhruv := [],
          playingIndex := none, playingCharacter := none, audioPaused := true,
          audioPlayerReady := true })) "dhruv" =
      some [{ sender := "user", message := "hey", audio := none, timestamp := "10:00" },
            { sender := "character", message := "Hello!", audio := some "AUDIO",
              timestamp := "10:01" }] := by
  have h := C6_two_appends_user_then_assistant
    { joey := [], dwight := [], dhruv := [{ role := Role.assistant, content := "old" }] }
    (some "sk-test") "dhruv" "hey" "Hello!"
    { name := "Dhruv Rathee", source := "YouTuber / Social Commentator",
      systemPrompt := "You are Dhruv Rathee, a popular Indian YouTuber known for analytical videos.",
      greeting := "Namaste!" }
    { name := "Dhruv Rathee", source := "YouTuber / Social Commentator",
      systemPrompt := "You are Dhruv Rathee, a popular Indian YouTuber and educator.",
      greeting := "Hello!" }
    (by rfl) (by rfl) (by decide) (by decide)
    { currentCharacter := "dhruv", histJoey := [], histDwight := [], histDhruv := [],
      playingIndex := none, playingCharacter := none, audioPaused := true,
      audioPlayerReady := true }
    [] "hey" "Hello!" (some "AUDIO") "10:00" "10:01" (by rfl)
  refine ⟨?_, ?_⟩
  · rw [h.2.1]
    rfl
  · rw [h.2.2.2.2]
    rfl

-- ============================================
-- C3 — store length over interleaved traces
-- ============================================

theorem lenOf_empty (p : String) : lenOf p emptyServer = 0 := by
  unfold lenOf getHist emptyServer
  split_ifs <;> rfl

theorem lenOf_stepC_respond_same (st : ServerState) (c u : String)
    (g : Except String String) (cd : Persona)
    (hcd : charactersC c = some cd) (hu : u ≠ "") :
    lenOf c (stepC st (Op.respond c u g)) =
      match g with
      | Except.ok _ => lenOf c st + 2
      | Except.error _ => lenOf c st + 1 := by
  have hsome : (charactersC c).isSome := by simp [hcd]
  have hc : c ≠ "" := charactersC_ne_empty c hsome
  have hs : (getHist st c).isSome := getHist_isSome_of_charactersC st c hsome
  have hget1 := getHist_pushMsg_getD st c { role := Role.user, content := u } hs
  have hs2 : (getHist (pushMsg st c { role := Role.user, content := u }) c).isSome :=
    getHist_isSome_of_charactersC _ c hsome
  have hguard : ¬ (falsy (some u) ∨ falsy (some c)) := by
    simp [falsy, hu, hc]
  have hk : ¬ falsy (some "sk-test") := by decide
  cases g with
  | error e =>
      simp [stepC, respondC, hguard, hcd, hk, lenOf, hget1]
  | ok a =>
      have hget2 := getHist_pushMsg_getD (pushMsg st c { role := Role.user, content := u })
        c { role := Role.assistant, content := a } hs2
      simp [stepC, respondC, hguard, hcd, hk, lenOf, hget2, hget1]

theorem getHist_stepC_respond_other (st : ServerState) (c u : String)
    (g : Except String String) (p : String) (hne : p ≠ c) :
    getHist (stepC st (Op.respond c u g)) p = getHist st p := by
  by_cases hguard : falsy (some u) ∨ falsy (some c)
  · simp [stepC, respondC, hguard]
  · cases hcc : charactersC c with
    | none => simp [stepC, respondC, hguard, hcc]
    | some cd =>
        have hk : ¬ falsy (some "sk-test") := by decide
        cases g with
        | error e =>
            simp [stepC, respondC, hguard, hcc, hk, getHist_pushMsg_other st c p _ hne]
        | ok a =>
            simp [stepC, respondC, hguard, hcc, hk, getHist_pushMsg_other, hne]

theorem lenOf_stepC_clear_same (st : ServerState) (p : String)
    (hp : (charactersC p).isSome) :
    lenOf p (stepC st (Op.clear p)) = 0 := by
  have hc : p ≠ "" := charactersC_ne_empty p hp
  have hs : (getHist st p).isSome := getHist_isSome_of_charactersC st p hp
  rcases Option.isSome_iff_exists.mp hs with ⟨h, hh⟩
  simp [stepC, clearC, falsy, hc, hs, lenOf, getHist_setEmpty_same, hh]

theorem getHist_stepC_clear_other (st : ServerState) (c p : String) (hne : p ≠ c) :
    getHist (stepC st (Op.clear c)) p = getHist st p := by
  simp only [stepC, clearC]
  split
  · exact getHist_setEmpty_other st c p hne
  · rfl

theorem runC_length_aux (p : String) (hp : (charactersC p).isSome) :
    ∀ (ops : List Op), (∀ op ∈ ops, wfOp op) → ∀ (st : ServerState) (s f : Nat),
      lenOf p st = 2 * s + f →
      lenOf p (runC st ops) = 2 * genSuccesses p s ops + genFailures p f ops := by
  intro ops
  induction ops with
  | nil =>
      intro hwf st s f hbase
      simpa [runC, genSuccesses, genFailures] using hbase
  | cons op rest ih =>
      intro hwf st s f hbase
      have hwfh : wfOp op := hwf op (by simp)
      have hwft : ∀ o ∈ rest, wfOp o := fun o ho => hwf o (by simp [ho])
      have hrun : runC st (op :: rest) = runC (stepC st op) rest := rfl
      rw [hrun]
      cases op with
      | respond c u g =>
          have hu : u ≠ "" := hwfh
          by_cases hcp : c = p
          · subst hcp
            rcases Option.isSome_iff_exists.mp hp with ⟨cd, hcd⟩
            have hstep := lenOf_stepC_respond_same st c u g cd hcd hu
            cases g with
            | ok a =>
                have hstep2 : lenOf c (stepC st (Op.respond c u (Except.ok a))) =
                    lenOf c st + 2 := hstep
                have hlen : lenOf c (stepC st (Op.respond c u (Except.ok a))) =
                    2 * (s + 1) + f := by
                  rw [hstep2]
                  omega
                have := ih hwft (stepC st (Op.respond c u (Except.ok a))) (s + 1) f hlen
                simpa [genSuccesses, genFailures] using this
            | error e =>
                have hstep2 : lenOf c (stepC st (Op.respond c u (Except.error e))) =
                    lenOf c st + 1 := hstep
                have hlen : lenOf c (stepC st (Op.respond c u (Except.error e))) =
                    2 * s + (f + 1) := by
                  rw [hstep2]
                  omega
                have := ih hwft (stepC st (Op.respond c u (Except.error e))) s (f + 1) hlen
                simpa [genSuccesses, genFailures] using this
          · have hpc : p ≠ c := fun h => hcp h.symm
            have hlen : lenOf p (stepC st (Op.respond c u g)) = 2 * s + f := by
              unfold lenOf
              rw [getHist_stepC_respond_other st c u g p hpc]
              exact hbase
            have := ih hwft (stepC st (Op.respond c u g)) s f hlen
            cases g with
            | ok a => simpa [genSuccesses, genFailures, hcp] using this
            | error e => simpa [genSuccesses, genFailures, hcp] using this
      | clear c =>
          by_cases hcp : c = p
          · subst hcp
            have hlen : lenOf c (stepC st (Op.clear c)) = 2 * 0 + 0 :=
              lenOf_stepC_clear_same st c hp
            have := ih hwft (stepC st (Op.clear c)) 0 0 hlen
            simpa [genSuccesses, genFailures] using this
          · have hpc : p ≠ c := fun h => hcp h.symm
            have hlen : lenOf p (stepC st (Op.clear c)) = 2 * s + f := by
              unfold lenOf
              rw [getHist_stepC_clear_other st c p hpc]
              exact hbase
            have := ih hwft (stepC st (Op.clear c)) s f hlen
            simpa [genSuccesses, genFailures, hcp] using this

/-- C3 counterexample: the claimed formula fails on both cited handlers.  On
the part_001 Vercel server, two consecutive failed generations for joey
leave TWO pending user messages, so the store length is 2 while the claim
predicts 2 x 0 successes + 1 = 1.  On the part_000 server a failed
generation appends nothing, so after one failure the length is 0 while the
claim again predicts 1. -/
theorem C3_counterexample :
    lenOf "joey" (runC emptyServer
      [Op.respond "joey" "hi" (Except.error "x"),
       Op.respond "joey" "yo" (Except.error "x")]) = 2 ∧
    (2 : Nat) ≠ 2 * 0 + 1 ∧
    lenOf "joey" ((respondA (some "sk-test") genFailX
      { userMessage := some "hi", character := some "joey" } emptyServer).state) = 0 ∧
    (0 : Nat) ≠ 2 * 0 + 1 := by
  refine ⟨rfl, by decide, rfl, by decide⟩

/-- C3 amended: on the part_001 Vercel server, for every persona p resolving
in the registry and every well-formed interleaving of respond and reset
operations (across all personas), the length of the history of p equals
2 x (successful generation stages for p since the last reset of p) plus the
number of FAILED generation attempts for p since that reset — each failed
attempt retains its own pending user message, not just the most recent one.
On the part_000 server a failed generation mutates nothing, so its store
length is exactly 2 x successes. -/
theorem C3_store_length_invariant (p : String) (hp : (charactersC p).isSome)
    (ops : List Op) (hwf : ∀ op ∈ ops, wfOp op) :
    lenOf p (runC emptyServer ops) =
      2 * genSuccesses p 0 ops + genFailures p 0 ops ∧
    (∀ (key : Option String) (e : String) (req : RespondReq) (st : ServerState),
      (respondA key (fun _ => Except.error e) req st).state = st) := by
  constructor
  · exact runC_length_aux p hp ops hwf emptyServer 0 0 (by rw [lenOf_empty])
  · intro key e req st
    by_cases hguard : falsy req.userMessage ∨ falsy req.character
    · simp [respondA, hguard]
    · cases hcc : charactersA (req.character.getD "") with
      | none => simp [respondA, hguard, hcc]
      | some cd => simp [respondA, hguard, hcc]

/-- C3 witness: a dwight trace with a success, a failure, a reset and a
final success predicts length 2 x 1 + 0 = 2, matching the store; and a
failing part_000 respond leaves a concrete store untouched. -/
theorem C3_store_length_invariant_witness :
    lenOf "dwight" (runC emptyServer
      [Op.respond "dwight" "a" (Except.ok "r1"),
       Op.respond "dwight" "b" (Except.error "x"),
       Op.clear "dwight",
       Op.respond "dwight" "c" (Except.ok "r2")]) =
      2 * genSuccesses "dwight" 0
        [Op.respond "dwight" "a" (Except.ok "r1"),
         Op.respond "dwight" "b" (Except.error "x"),
         Op.clear "dwight",
         Op.respond "dwight" "c" (Except.ok "r2")] +
        genFailures "dwight" 0
        [Op.respond "dwight" "a" (Except.ok "r1"),
         Op.respond "dwight" "b" (Except.error "x"),
         Op.clear "dwight",
         Op.respond "dwight" "c" (Except.ok "r2")] ∧
    (respondA (some "sk-test") genFailX
      { userMessage := some "hi", character := some "joey" }
      { joey := [{ role := Role.user, content := "old" }], dwight := [], dhruv := [] }).state =
      { joey := [{ role := Role.user, content := "old" }], dwight := [], dhruv := [] } := by
  have h := C3_store_length_invariant "dwight" (by decide)
    [Op.respond "dwight" "a" (Except.ok "r1"),
     Op.respond "dwight" "b" (Except.error "x"),
     Op.clear "dwight",
     Op.respond "dwight" "c" (Except.ok "r2")]
    (by decide)
  exact ⟨h.1, h.2 (some "sk-test") "boom"
    { userMessage := some "hi", character := some "joey" }
    { joey := [{ role := Role.user, content := "old" }], dwight := [], dhruv := [] }⟩

-- ============================================
-- C9 — at most one message playing
-- ============================================

/-- C9: the client playback sub-state is the single pair of globals
currentlyPlayingIndex and currentlyPlayingCharacter, so at most one message
reference can be in Playing at any time; and starting playback of message B
(with stored audio, in range, play permitted) while a different message A
is playing leaves exactly B — and not A — in Playing: playMessageAudio
repoints both globals at B in its non-toggle branch. -/
theorem C9_single_playback (st : ClientState) (cA cB : String) (iA iB : Nat)
    (hready : st.audioPlayerReady = true)
    (hpi : st.playingIndex = some iA) (hpc : st.playingCharacter = some cA)
    (hpp : st.audioPaused = false)
    (hne : ¬ (iB = iA ∧ cB = cA))
    (hist : List HistItem) (hh : clientHist st cB = some hist)
    (hlen : iB < hist.length) (m : HistItem) (hm : hist[iB]? = some m)
    (au : String) (ha : m.audio = some au) :
    (playMessageAudio true cB iB st).playingIndex = some iB ∧
    (playMessageAudio true cB iB st).playingCharacter = some cB ∧
    ¬ ((playMessageAudio true cB iB st).playingIndex = some iA ∧
       (playMessageAudio true cB iB st).playingCharacter = some cA) := by
  have hcond : ¬ (st.playingIndex = some iB ∧ st.playingCharacter = some cB ∧
      st.audioPaused = false) := by
    rintro ⟨h1, h2, _⟩
    rw [hpi] at h1
    rw [hpc] at h2
    exact hne ⟨(Option.some.inj h1).symm, (Option.some.inj h2).symm⟩
  have hlen2 : ¬ (hist.length ≤ iB) := Nat.not_le.mpr hlen
  refine ⟨?_, ?_, ?_⟩
  · simp [playMessageAudio, hready, hh, hlen2, hm, ha, hcond]
  · simp [playMessageAudio, hready, hh, hlen2, hm, ha, hcond]
  · simp only [playMessageAudio, hready, Bool.not_true]
    rw [hh]
    simp only [hlen2, if_false, hm, ha]
    simp only [hcond, if_false]
    simp only [Option.isNone_some, Bool.false_eq_true, if_false, if_true]
    rintro ⟨h1, h2⟩
    exact hne ⟨Option.some.inj h1, Option.some.inj h2⟩

/-- C9 witness: with two audio-bearing joey messages and message 0 playing,
starting message 1 leaves exactly message 1 playing. -/
theorem C9_single_playback_witness :
    (playMessageAudio true "joey" 1
      { currentCharacter := "joey",
        histJoey :=
          [{ sender := "character", message := "m0", audio := some "A0", timestamp := "t0" },
           { sender := "character", message := "m1", audio := some "A1", timestamp := "t1" }],
        histDwight := [], histDhruv := [],
        playingIndex := some 0, playingCharacter := some "joey",
        audioPaused := false, audioPlayerReady := true }).playingIndex = some 1 ∧
    (playMessageAudio true "joey" 1
      { currentCharacter := "joey",
        histJoey :=
          [{ sender := "character", message := "m0", audio := some "A0", timestamp := "t0" },
           { sender := "character", message := "m1", audio := some "A1", timestamp := "t1" }],
        histDwight := [], histDhruv := [],
        playingIndex := some 0, playingCharacter := some "joey",
        audioPaused := false, audioPlayerReady := true }).playingCharacter = some "joey" ∧
    ¬ ((playMessageAudio true "joey" 1
      { currentCharacter := "joey",
        histJoey :=
          [{ sender := "character", message := "m0", audio := some "A0", timestamp := "t0" },
           { sender := "character", message := "m1", audio := some "A1", timestamp := "t1" }],
        histDwight := [], histDhruv := [],
        playingIndex := some 0, playingCharacter := some "joey",
        audioPaused := false, audioPlayerReady := true }).playingIndex = some 0 ∧
      (playMessageAudio true "joey" 1
      { currentCharacter := "joey",
        histJoey :=
          [{ sender := "character", message := "m0", audio := some "A0", timestamp := "t0" },
           { sender := "character", message := "m1", audio := some "A1", timestamp := "t1" }],
        histDwight := [], histDhruv := [],
        playingIndex := some 0, playingCharacter := some "joey",
        audioPaused := false, audioPlayerReady := true }).playingCharacter = some "joey") := by
  exact C9_single_playback
    { currentCharacter := "joey",
      histJoey :=
        [{ sender := "character", message := "m0", audio := some "A0", timestamp := "t0" },
         { sender := "character", message := "m1", audio := some "A1", timestamp := "t1" }],
      histDwight := [], histDhruv := [],
      playingIndex := some 0, playingCharacter := some "joey",
      audioPaused := false, audioPlayerReady := true }
    "joey" "joey" 0 1 rfl rfl rfl rfl (by decide)
    [{ sender := "character", message := "m0", audio := some "A0", timestamp := "t0" },
     { sender := "character", message := "m1", audio := some "A1", timestamp := "t1" }]
    rfl (by decide)
    { sender := "character", message := "m1", audio := some "A1", timestamp := "t1" }
    rfl "A1" rfl

-- ============================================
-- C10 — appends filed under the currently selected persona
-- ============================================

theorem clientHist_sendTurn_switch (q transcript reply audio t1 t2 : String)
    (playOk : Bool) (st : ClientState) (ch : String) :
    clientHist (sendTurn (some q) transcript reply audio t1 t2 playOk st) ch =
      clientHist (addToHistory t2 "character" reply (some audio)
        (addToHistory t1 "user" transcript none (selectCharacter q st))) ch := by
  simp only [sendTurn]
  split
  · exact clientHist_update_playing _ _ _ _ _
  · exact clientHist_update_playing _ _ _ _ _

/-- C10: addToHistory always pushes onto the history of the character
selected at the moment of the call (and touches no other history), so when
the active persona is switched from p to q while a turn is in flight, the
turn appends — the transcript and the assistant reply — land in the history
of the newly selected q while the history of p, the persona the turn was
started for, is left unchanged. -/
theorem C10_append_under_current_selection (st : ClientState) (now s m : String)
    (a : Option String) (l : List HistItem)
    (h : clientHist st st.currentCharacter = some l)
    (cst : ClientState) (p q : String) (hpq : p ≠ q)
    (hcur : cst.currentCharacter = p) (lq : List HistItem)
    (hq : clientHist cst q = some lq)
    (transcript reply audio t1 t2 : String) (playOk : Bool) :
    (clientHist (addToHistory now s m a st) st.currentCharacter =
      some (l ++ [{ sender := s, message := m, audio := a, timestamp := now }])) ∧
    (∀ r : String, r ≠ st.currentCharacter →
      clientHist (addToHistory now s m a st) r = clientHist st r) ∧
    (clientHist (sendTurn (some q) transcript reply audio t1 t2 playOk cst) q =
      some (lq ++
        [{ sender := "user", message := transcript, audio := none, timestamp := t1 },
         { sender := "character", message := reply, audio := some audio, timestamp := t2 }])) ∧
    (clientHist (sendTurn (some q) transcript reply audio t1 t2 playOk cst) p =
      clientHist cst p) := by
  have hsel : (selectCharacter q cst).currentCharacter = q := rfl
  have hselh : ∀ r : String, clientHist (selectCharacter q cst) r = clientHist cst r := by
    intro r
    rfl
  have hq1 : clientHist (selectCharacter q cst) q = some lq := by
    rw [hselh]
    exact hq
  have h1 := addToHistory_appends_current (selectCharacter q cst) t1 "user" transcript none
    lq (by rw [hsel]; exact hq1)
  rw [hsel] at h1
  have hcc1 := addToHistory_currentCharacter (selectCharacter q cst) t1 "user" transcript none
  rw [hsel] at hcc1
  have h2 := addToHistory_appends_current
    (addToHistory t1 "user" transcript none (selectCharacter q cst)) t2
    "character" reply (some audio)
    (lq ++ [{ sender := "user", message := transcript, audio := none, timestamp := t1 }])
    (by rw [hcc1]; exact h1)
  rw [hcc1] at h2
  refine ⟨addToHistory_appends_current st now s m a l h, ?_, ?_, ?_⟩
  · intro r hr
    exact addToHistory_other st now s m a r hr
  · rw [clientHist_sendTurn_switch]
    rw [h2]
    simp
  · have hp1 : p ≠ (selectCharacter q cst).currentCharacter := by
      rw [hsel]
      exact hpq
    have hframe1 := addToHistory_other (selectCharacter q cst) t1 "user" transcript none p hp1
    have hp2 : p ≠ (addToHistory t1 "user" transcript none
        (selectCharacter q cst)).currentCharacter := by
      rw [hcc1]
      exact hpq
    have hframe2 := addToHistory_other
      (addToHistory t1 "user" transcript none (selectCharacter q cst)) t2
      "character" reply (some audio) p hp2
    rw [clientHist_sendTurn_switch, hframe2, hframe1, hselh]

/-- C10 witness: a turn started for joey with a switch to dwight during
transcription files both entries under dwight and leaves joey untouched. -/
theorem C10_append_under_current_selection_witness :
    clientHist (sendTurn (some "dwight") "hi" "Fact." "AU" "t1" "t2" true
      { currentCharacter := "joey",
        histJoey := [{ sender := "user", message := "old", audio := none, timestamp := "t0" }],
        histDwight := [], histDhruv := [],
        playingIndex := none, playingCharacter := none,
        audioPaused := true, audioPlayerReady := true }) "dwight" =
      some [{ sender := "user", message := "hi", audio := none, timestamp := "t1" },
            { sender := "character", message := "Fact.", audio := some "AU", timestamp := "t2" }] ∧
    clientHist (sendTurn (some "dwight") "hi" "Fact." "AU" "t1" "t2" true
      { currentCharacter := "joey",
        histJoey := [{ sender := "user", message := "old", audio := none, timestamp := "t0" }],
        histDwight := [], histDhruv := [],
        playingIndex := none, playingCharacter := none,
        audioPaused := true, audioPlayerReady := true }) "joey" =
      some [{ sender := "user", message := "old", audio := none, timestamp := "t0" }] := by
  have h := C10_append_under_current_selection
    { currentCharacter := "joey",
      histJoey := [{ sender := "user", message := "old", audio := none, timestamp := "t0" }],
      histDwight := [], histDhruv := [],
      playingIndex := none, playingCharacter := none,
      audioPaused := true, audioPlayerReady := true }
    "t9" "user" "x" none
    [{ sender := "user", message := "old", audio := none, timestamp := "t0" }]
    (by rfl)
    { currentCharacter := "joey",
      histJoey := [{ sender := "user", message := "old", audio := none, timestamp := "t0" }],
      histDwight := [], histDhruv := [],
      playingIndex := none, playingCharacter := none,
      audioPaused := true, audioPlayerReady := true }
    "joey" "dwight" (by decide) (by rfl) [] (by rfl)
    "hi" "Fact." "AU" "t1" "t2" true
  refine ⟨?_, ?_⟩
  · rw [h.2.2.1]
    rfl
  · rw [h.2.2.2]
    rfl

end VoiceChat
